import Mathlib

set_option maxRecDepth 10000

/-!
Verification of the xonsh prompt-bridge script `src/shell/scripts/omp.py`
(oh-my-posh shell integration for the xonsh shell).

The script is embedded shallowly:

* A history record (`__xonsh__.history[-1]`) carries a return status `rtn`
  and a pair of wall-clock timestamps `ts = [start, end]`.  Python floats
  are modelled as rationals (ℚ), with exact arithmetic; Python's built-in
  `round` (round-half-to-even, "banker's rounding") is modelled by
  `pyRound`.
* The module-level environment variables set at startup
  (`$POWERLINE_COMMAND`, `$POSH_THEME`, `$POSH_PID`, `$POSH_SHELL_VERSION`,
  `$POSH_EXECUTABLE`) are modelled as an `Env` structure built once by
  `startup`; the random uuid and the host shell version are parameters.
* The external renderer subprocess is modelled as an opaque function from
  an argument vector to its stdout string; `posh_primary` / `posh_right`
  build the argument vector and post-process the captured stdout.
-/

/-- One entry of the xonsh history log, as read by the script:
`rtn` is the command's return status, `ts0`/`ts1` are the start and end
wall-clock timestamps (`ts[0]`, `ts[1]`), modelled as exact rationals. -/
structure CommandRecord where
  rtn : Int
  ts0 : ℚ
  ts1 : ℚ
  deriving Repr, DecidableEq

/-- The history log `__xonsh__.history`, most recent entry last
(`history[-1]` is the last element). -/
abbrev History := List CommandRecord

/-- Python's built-in `round` on an exactly-represented value: round to the
nearest integer, ties to the even integer (banker's rounding). -/
def pyRound (x : ℚ) : Int :=
  if x - x.floor < 1/2 then x.floor
  else if 1/2 < x - x.floor then x.floor + 1
  else if x.floor % 2 = 0 then x.floor else x.floor + 1

/-- `get_command_context` from the script:
`last_cmd = history[-1] if history else None`;
`status = last_cmd.rtn if last_cmd else 0`;
`duration = round((last_cmd.ts[1] - last_cmd.ts[0]) * 1000) if last_cmd else 0`. -/
def get_command_context (hist : History) : Int × Int :=
  match hist.getLast? with
  | some last_cmd => (last_cmd.rtn, pyRound ((last_cmd.ts1 - last_cmd.ts0) * 1000))
  | none => (0, 0)

/-- `get_command_context` with the fallible step explicit: the negative
index `history[-1]` is modelled by `List.getLast?`, whose `none` result
stands for Python's `IndexError`.  The emptiness guard
`if __xonsh__.history` decides whether the index is evaluated at all. -/
def get_command_context_checked (hist : History) : Option (Int × Int) :=
  if hist.isEmpty then some (0, 0)
  else hist.getLast?.map
    (fun last_cmd => (last_cmd.rtn, pyRound ((last_cmd.ts1 - last_cmd.ts0) * 1000)))

/-- The module-level environment set once at script load time. -/
structure Env where
  POWERLINE_COMMAND : String
  POSH_THEME : String
  POSH_PID : String
  POSH_SHELL_VERSION : String
  POSH_EXECUTABLE : String
  deriving Repr, DecidableEq

/-- The five top-level assignments of the script, run once at startup.
`uuidHex` stands for `uuid.uuid4().hex` (one fresh random draw) and
`xonshVersion` for `$XONSH_VERSION`; `::CONFIG::` and `::OMP::` are the
literal placeholders baked into the script at deployment time. -/
def startup (uuidHex xonshVersion : String) : Env :=
  { POWERLINE_COMMAND := "OMP"
    POSH_THEME := "::CONFIG::"
    POSH_PID := uuidHex
    POSH_SHELL_VERSION := xonshVersion
    POSH_EXECUTABLE := "::OMP::"
  }

/-- The external renderer subprocess: argument vector to captured stdout. -/
abbrev Renderer := List String → String

/-- Modelled from the spec: the xonsh output-capture operator `$(...)`
wrapping the subprocess call is host-shell behaviour whose implementation
is not part of this repository; the spec states that the captured stdout
is returned "with exactly one trailing newline removed (if present) and no
other transformation". -/
def stripTrailingNewline (s : String) : String :=
  if s.data.getLast? = some '\n' then ⟨s.data.dropLast⟩ else s

/-- The argument vector of the subprocess spawned by `posh_primary`:
`$POSH_EXECUTABLE print primary --shell=xonsh --status=@(status)
--execution-time=@(duration) --shell-version=@($POSH_SHELL_VERSION)`. -/
def posh_primary_args (e : Env) (hist : History) : List String :=
  let (status, duration) := get_command_context hist
  [e.POSH_EXECUTABLE, "print", "primary", "--shell=xonsh",
   "--status=" ++ toString status,
   "--execution-time=" ++ toString duration,
   "--shell-version=" ++ e.POSH_SHELL_VERSION]

/-- The argument vector of the subprocess spawned by `posh_right`: identical
to `posh_primary_args` except for the mode selector `right`. -/
def posh_right_args (e : Env) (hist : History) : List String :=
  let (status, duration) := get_command_context hist
  [e.POSH_EXECUTABLE, "print", "right", "--shell=xonsh",
   "--status=" ++ toString status,
   "--execution-time=" ++ toString duration,
   "--shell-version=" ++ e.POSH_SHELL_VERSION]

/-- `posh_primary()`: read the command context, invoke the renderer with
the primary argument vector, return the captured stdout. -/
def posh_primary (e : Env) (render : Renderer) (hist : History) : String :=
  stripTrailingNewline (render (posh_primary_args e hist))

/-- `posh_right()`: read the command context, invoke the renderer with
the right argument vector, return the captured stdout. -/
def posh_right (e : Env) (render : Renderer) (hist : History) : String :=
  stripTrailingNewline (render (posh_right_args e hist))

/-- One interactive prompt draw cycle: the host shell calls the `$PROMPT`
hook and the `$RIGHT_PROMPT` hook with the current environment and history;
neither hook writes to the environment, so the cycle returns it unchanged. -/
def promptDrawCycle (e : Env) (render : Renderer) (hist : History) :
    (String × String) × Env :=
  ((posh_primary e render hist, posh_right e render hist), e)

/-- A whole session after startup: fold any sequence of prompt draw cycles
(each with its own renderer behaviour and history state) over the
environment, returning the final environment. -/
def runSession (e : Env) : List (Renderer × History) → Env
  | [] => e
  | rh :: rest => runSession (promptDrawCycle e rh.1 rh.2).2 rest

/-! ### Helper lemmas about `pyRound` and `get_command_context` -/

/-- `Rat.floor` agrees with the ambient `Int.floor` on ℚ. -/
lemma rat_floor_eq_intFloor (x : ℚ) : x.floor = ⌊x⌋ := by
  rw [Rat.floor_def', Rat.floor_def]

lemma rat_floor_le (x : ℚ) : (x.floor : ℚ) ≤ x := by
  rw [rat_floor_eq_intFloor]; exact Int.floor_le x

lemma rat_lt_floor_add_one (x : ℚ) : x < (x.floor : ℚ) + 1 := by
  rw [rat_floor_eq_intFloor]
  exact_mod_cast Int.lt_floor_add_one x

/-- `pyRound` returns a nearest integer: it is never farther than 1/2 from
its argument. -/
lemma pyRound_nearest (x : ℚ) : |x - (pyRound x : ℚ)| ≤ 1/2 := by
  have h1 := rat_floor_le x
  have h2 := rat_lt_floor_add_one x
  unfold pyRound
  split_ifs with ha hb hc <;>
    (rw [abs_le]; constructor <;> push_cast <;> linarith)

/-- `pyRound` breaks exact ties towards the even integer: either the
argument is strictly closer than 1/2 to the result, or the result is even. -/
lemma pyRound_tie_even (x : ℚ) :
    |x - (pyRound x : ℚ)| < 1/2 ∨ pyRound x % 2 = 0 := by
  have h1 := rat_floor_le x
  have h2 := rat_lt_floor_add_one x
  unfold pyRound
  split_ifs with ha hb hc
  · left; rw [abs_lt]; constructor <;> linarith
  · left; rw [abs_lt]; push_cast; constructor <;> linarith
  · right; exact hc
  · right; omega

/-- `pyRound` of a non-negative rational is non-negative. -/
lemma pyRound_nonneg (x : ℚ) (hx : 0 ≤ x) : 0 ≤ pyRound x := by
  have hf : 0 ≤ x.floor := by
    rw [rat_floor_eq_intFloor]; exact Int.floor_nonneg.mpr hx
  unfold pyRound
  split_ifs <;> omega

/-- The context computed from a history that ends with record `l`. -/
lemma get_command_context_concat (pre : History) (l : CommandRecord) :
    get_command_context (pre ++ [l]) = (l.rtn, pyRound ((l.ts1 - l.ts0) * 1000)) := by
  simp [get_command_context, List.getLast?_concat]

/-! ### Claims -/

/-- C1: in a session in which no command has yet been executed (empty
history), both `posh_primary` and `posh_right` invoke the external renderer
with `--status=0` and `--execution-time=0`. -/
theorem c1_empty_history_zero_args (e : Env) (render : Renderer) :
    get_command_context [] = (0, 0) ∧
    posh_primary_args e [] =
      [e.POSH_EXECUTABLE, "print", "primary", "--shell=xonsh",
       "--status=0", "--execution-time=0",
       "--shell-version=" ++ e.POSH_SHELL_VERSION] ∧
    posh_right_args e [] =
      [e.POSH_EXECUTABLE, "print", "right", "--shell=xonsh",
       "--status=0", "--execution-time=0",
       "--shell-version=" ++ e.POSH_SHELL_VERSION] ∧
    posh_primary e render [] = stripTrailingNewline (render (posh_primary_args e [])) ∧
    posh_right e render [] = stripTrailingNewline (render (posh_right_args e [])) :=
  ⟨rfl, rfl, rfl, rfl, rfl⟩

/-- C3: for the history `[{rtn: 1, ts: [10.0, 10.5]}]`, `get_command_context`
yields status 1 and duration 500, and these become the `--status` and
`--execution-time` arguments of both renderer invocations. -/
theorem c3_scenario_status_one_duration_500 (e : Env) :
    get_command_context [⟨1, 10, 21/2⟩] = (1, 500) ∧
    posh_primary_args e [⟨1, 10, 21/2⟩] =
      [e.POSH_EXECUTABLE, "print", "primary", "--shell=xonsh",
       "--status=1", "--execution-time=500",
       "--shell-version=" ++ e.POSH_SHELL_VERSION] ∧
    posh_right_args e [⟨1, 10, 21/2⟩] =
      [e.POSH_EXECUTABLE, "print", "right", "--shell=xonsh",
       "--status=1", "--execution-time=500",
       "--shell-version=" ++ e.POSH_SHELL_VERSION] := by
  with_unfolding_all exact ⟨rfl, rfl, rfl⟩

/-- C4: within one prompt draw cycle the two argument vectors carry the mode
selector `primary` resp. `right` in position 2, and agree everywhere else. -/
theorem c4_mode_selector_only_difference (e : Env) (hist : History) :
    (posh_primary_args e hist)[2]? = some "primary" ∧
    (posh_right_args e hist)[2]? = some "right" ∧
    (posh_primary_args e hist).take 2 = (posh_right_args e hist).take 2 ∧
    (posh_primary_args e hist).drop 3 = (posh_right_args e hist).drop 3 := by
  simp [posh_primary_args, posh_right_args]

/-- C5: every renderer invocation has the exact shape
`<executable> print <mode> --shell=xonsh --status=<int> --execution-time=<int>
--shell-version=<string>`; the executable path and the theme reference are
fixed by `startup` and the executable component never depends on the
history observed at call time. -/
theorem c5_invocation_shape (u v : String) (hist : History) :
    posh_primary_args (startup u v) hist =
      [(startup u v).POSH_EXECUTABLE, "print", "primary", "--shell=xonsh",
       "--status=" ++ toString (get_command_context hist).1,
       "--execution-time=" ++ toString (get_command_context hist).2,
       "--shell-version=" ++ (startup u v).POSH_SHELL_VERSION] ∧
    posh_right_args (startup u v) hist =
      [(startup u v).POSH_EXECUTABLE, "print", "right", "--shell=xonsh",
       "--status=" ++ toString (get_command_context hist).1,
       "--execution-time=" ++ toString (get_command_context hist).2,
       "--shell-version=" ++ (startup u v).POSH_SHELL_VERSION] ∧
    (startup u v).POSH_EXECUTABLE = "::OMP::" ∧
    (startup u v).POSH_THEME = "::CONFIG::" ∧
    (∀ hist' : History,
      (posh_primary_args (startup u v) hist).head? =
        (posh_primary_args (startup u v) hist').head? ∧
      (posh_right_args (startup u v) hist).head? =
        (posh_right_args (startup u v) hist').head?) :=
  ⟨rfl, rfl, rfl, rfl, fun _ => ⟨rfl, rfl⟩⟩

/-- C2 counterexample: at the claim's own example `t0 = 0.0, t1 = 1.2345`
the computed duration is 1234, while rounding half-up (Mathlib's `round`,
`round x = ⌊x + 1/2⌋`) gives 1235; so the duration is not the half-up
rounding of `(t1 − t0) × 1000`. -/
theorem c2_counterexample_half_up_fails :
    (get_command_context [⟨0, 0, 12345/10000⟩]).2 = 1234 ∧
    round (((12345/10000 : ℚ) - 0) * 1000) = 1235 ∧
    (get_command_context [⟨0, 0, 12345/10000⟩]).2 ≠
      round (((12345/10000 : ℚ) - 0) * 1000) := by
  refine ⟨by with_unfolding_all decide, ?_, ?_⟩
  · rw [round_eq]; norm_num
  · rw [round_eq]; norm_num; with_unfolding_all decide

/-- C2 (amended): the duration computed from a last history entry with
timestamps `t0`, `t1` is `(t1 − t0) × 1000` rounded to the nearest integer
with exact ties broken towards the even integer (Python's round-half-even,
not half-up): the result is within 1/2 of the exact value, and whenever it
is exactly 1/2 away (a tie) it is even. -/
theorem c2_duration_round_half_even (pre : History) (r : Int) (t0 t1 : ℚ) :
    |(t1 - t0) * 1000 - ((get_command_context (pre ++ [⟨r, t0, t1⟩])).2 : ℚ)| ≤ 1/2 ∧
    (|(t1 - t0) * 1000 - ((get_command_context (pre ++ [⟨r, t0, t1⟩])).2 : ℚ)| < 1/2 ∨
      (get_command_context (pre ++ [⟨r, t0, t1⟩])).2 % 2 = 0) := by
  rw [get_command_context_concat]
  exact ⟨pyRound_nearest _, pyRound_tie_even _⟩

/-- `stripTrailingNewline` removes exactly one trailing newline when one is
present and is the identity otherwise. -/
lemma stripTrailingNewline_spec (s : String) :
    (s.data.getLast? = some '\n' ∧ (stripTrailingNewline s).data ++ ['\n'] = s.data) ∨
    (s.data.getLast? ≠ some '\n' ∧ stripTrailingNewline s = s) := by
  unfold stripTrailingNewline
  split_ifs with h
  · exact Or.inl ⟨h, List.dropLast_append_getLast? _ h⟩
  · exact Or.inr ⟨h, rfl⟩

/-- C6: each render function returns exactly the renderer's captured stdout
with one trailing newline removed when one is present, and the stdout
unchanged otherwise. -/
theorem c6_trailing_newline_stripped (e : Env) (render : Renderer) (hist : History) :
    (((render (posh_primary_args e hist)).data.getLast? = some '\n' ∧
        (posh_primary e render hist).data ++ ['\n'] =
          (render (posh_primary_args e hist)).data) ∨
      ((render (posh_primary_args e hist)).data.getLast? ≠ some '\n' ∧
        posh_primary e render hist = render (posh_primary_args e hist))) ∧
    (((render (posh_right_args e hist)).data.getLast? = some '\n' ∧
        (posh_right e render hist).data ++ ['\n'] =
          (render (posh_right_args e hist)).data) ∨
      ((render (posh_right_args e hist)).data.getLast? ≠ some '\n' ∧
        posh_right e render hist = render (posh_right_args e hist))) :=
  ⟨stripTrailingNewline_spec _, stripTrailingNewline_spec _⟩

/-- C7 counterexample: the code does not clamp the duration; for a last
history entry whose end timestamp precedes its start timestamp
(`ts = [1.0, 0.0]`) the computed duration is −1000, a negative value. -/
theorem c7_counterexample_negative_duration :
    (get_command_context [⟨0, 1, 0⟩]).2 = -1000 ∧
    (get_command_context [⟨0, 1, 0⟩]).2 < 0 := by
  constructor <;> with_unfolding_all decide

/-- C7 (amended): whenever the last history entry's end timestamp is at
least its start timestamp, the computed duration is non-negative. -/
theorem c7_duration_nonneg (pre : History) (r : Int) (t0 t1 : ℚ)
    (h : t0 ≤ t1) : 0 ≤ (get_command_context (pre ++ [⟨r, t0, t1⟩])).2 := by
  rw [get_command_context_concat]
  exact pyRound_nonneg _ (by nlinarith)

/-- C7 witness: the amended theorem applied at the concrete history
`[{rtn: 0, ts: [10, 11]}]`. -/
theorem c7_duration_nonneg_witness :
    (10 : ℚ) ≤ 11 ∧ 0 ≤ (get_command_context ([] ++ [⟨0, 10, 11⟩])).2 :=
  ⟨by decide, c7_duration_nonneg [] 0 10 11 (by decide)⟩

/-- C8: the session identifier is generated exactly once, by `startup`;
running any sequence of prompt draw cycles leaves the whole environment —
in particular `$POSH_PID` — unchanged, so every draw observes the value
chosen at startup. -/
theorem c8_session_id_generated_once (u v : String)
    (draws : List (Renderer × History)) :
    (startup u v).POSH_PID = u ∧
    runSession (startup u v) draws = startup u v ∧
    (runSession (startup u v) draws).POSH_PID = u ∧
    (∀ (e : Env) (render : Renderer) (hist : History),
      (promptDrawCycle e render hist).2 = e) := by
  have hrun : ∀ (ds : List (Renderer × History)) (e : Env), runSession e ds = e := by
    intro ds
    induction ds with
    | nil => intro e; rfl
    | cons rh rest ih => intro e; exact ih e
  have h2 := hrun draws (startup u v)
  refine ⟨rfl, h2, ?_, fun _ _ _ => rfl⟩
  rw [h2]
  rfl

/-- C9: the command context depends only on the last history entry — two
histories with identical last entries (same `rtn`, same `ts[0]`, `ts[1]`)
yield identical (status, duration) pairs, whatever their earlier entries. -/
theorem c9_only_last_entry_matters (pre₁ pre₂ : History) (r : Int) (t0 t1 : ℚ) :
    get_command_context (pre₁ ++ [⟨r, t0, t1⟩]) =
      get_command_context (pre₂ ++ [⟨r, t0, t1⟩]) := by
  rw [get_command_context_concat, get_command_context_concat]

/-- C10: `get_command_context` is total: with the fallible `history[-1]`
index made explicit (`none` standing for `IndexError`), every history —
empty or not — produces `some` result, equal to the total function's
value; the error branch is unreachable. -/
theorem c10_get_command_context_total (hist : History) :
    get_command_context_checked hist = some (get_command_context hist) := by
  unfold get_command_context_checked get_command_context
  cases h : hist.getLast? with
  | none =>
    have : hist = [] := List.getLast?_eq_none_iff.mp h
    subst this; rfl
  | some last_cmd =>
    have : hist ≠ [] := by
      intro he; subst he; simp at h
    simp [List.isEmpty_iff, this, h]
